import Mathlib

/-!
Verification development for the brick bullseye keypoint detector and the
Transform2D homogeneous-transform algebra.

Part A embeds `Transform2D` from
`src/numeric/brick/numeric/transform2D_impl.hh`: the nine stored matrix
elements, the default (identity) constructor, the element accessors
(`getValue<row, column>` and `operator()(row, column)`), cofactor-based
`invert()`, and transform composition `operator*`.  The scalar type is
instantiated at ℚ, reading the C++ `Type` arithmetic as exact field
arithmetic.  Exceptions (`IndexException`, `ValueException`) are embedded
as `Except String` error results.

Part B models the `KeypointSelectorBullseye` detector.  Its implementation
file is not part of the inspected sources (only its unit test is), so the
detector is modelled from the specification: configuration validation,
image binding with a size check, a scan of admissible locations restricted
to a `maxRadius` margin, non-maximum suppression with a quality threshold
and a lexicographic tie-break, memoized accessors, and a sub-pixel refiner
whose offset is clamped below one pixel per axis.
-/

/- ================= Part A: Transform2D ================= -/

/-- The nine stored elements `m_00 .. m_22` of a `Transform2D`, over exact
field arithmetic (ℚ in place of the C++ `Type`). -/
structure Transform2D where
  m_00 : ℚ
  m_01 : ℚ
  m_02 : ℚ
  m_10 : ℚ
  m_11 : ℚ
  m_12 : ℚ
  m_20 : ℚ
  m_21 : ℚ
  m_22 : ℚ
deriving DecidableEq

/-- The default constructor `Transform2D()`: initializes to identity. -/
def Transform2D.identityT : Transform2D :=
  ⟨1, 0, 0, 0, 1, 0, 0, 0, 1⟩

/-- The templated accessor `getValue<row, column>()`: returns the stored
element for in-range indices and throws `IndexException` (embedded as an
error result) otherwise.  The transform itself is never modified (the
embedding is a pure function of `t`). -/
def Transform2D.getValue (t : Transform2D) (row column : Nat) : Except String ℚ :=
  match row, column with
  | 0, 0 => Except.ok t.m_00
  | 0, 1 => Except.ok t.m_01
  | 0, 2 => Except.ok t.m_02
  | 1, 0 => Except.ok t.m_10
  | 1, 1 => Except.ok t.m_11
  | 1, 2 => Except.ok t.m_12
  | 2, 0 => Except.ok t.m_20
  | 2, 1 => Except.ok t.m_21
  | 2, 2 => Except.ok t.m_22
  | _, _ => Except.error "IndexException"

/-- The element accessor `operator()(row, column) const`.  It mirrors the
source switch statement, including the case `(2, 0)` which routes through
the templated `value<2, 0>()` accessor rather than reading `m_20`
directly; out-of-range indices throw `IndexException`. -/
def Transform2D.applyIndex (t : Transform2D) (row column : Nat) : Except String ℚ :=
  match row, column with
  | 0, 0 => Except.ok t.m_00
  | 0, 1 => Except.ok t.m_01
  | 0, 2 => Except.ok t.m_02
  | 1, 0 => Except.ok t.m_10
  | 1, 1 => Except.ok t.m_11
  | 1, 2 => Except.ok t.m_12
  | 2, 0 => t.getValue 2 0
  | 2, 1 => Except.ok t.m_21
  | 2, 2 => Except.ok t.m_22
  | _, _ => Except.error "IndexException"

/-- The 3x3 determinant `det012012` computed inside `invert()`:
`m_00 * det1212 - m_01 * det1202 + m_02 * det1201`. -/
def Transform2D.det012012 (t : Transform2D) : ℚ :=
  t.m_00 * (t.m_11 * t.m_22 - t.m_12 * t.m_21)
  - t.m_01 * (t.m_10 * t.m_22 - t.m_12 * t.m_20)
  + t.m_02 * (t.m_10 * t.m_21 - t.m_11 * t.m_20)

/-- `Transform2D::invert()` by the cofactor method, as in the source: the
nine 2x2 subdeterminants `detRRCC`, the full determinant `det012012`, a
`ValueException` when that determinant is zero, and otherwise the adjugate
divided by the determinant.  The receiver is never modified. -/
def Transform2D.invert (t : Transform2D) : Except String Transform2D :=
  let det0101 := t.m_00 * t.m_11 - t.m_01 * t.m_10
  let det0102 := t.m_00 * t.m_12 - t.m_02 * t.m_10
  let det0112 := t.m_01 * t.m_12 - t.m_02 * t.m_11
  let det0201 := t.m_00 * t.m_21 - t.m_01 * t.m_20
  let det0202 := t.m_00 * t.m_22 - t.m_02 * t.m_20
  let det0212 := t.m_01 * t.m_22 - t.m_02 * t.m_21
  let det1201 := t.m_10 * t.m_21 - t.m_11 * t.m_20
  let det1202 := t.m_10 * t.m_22 - t.m_12 * t.m_20
  let det1212 := t.m_11 * t.m_22 - t.m_12 * t.m_21
  let det012012 := t.m_00 * det1212 - t.m_01 * det1202 + t.m_02 * det1201
  if det012012 = 0 then
    Except.error "Transform is not invertible."
  else
    Except.ok ⟨det1212 / det012012, -det0212 / det012012, det0112 / det012012,
               -det1202 / det012012, det0202 / det012012, -det0102 / det012012,
               det1201 / det012012, -det0201 / det012012, det0101 / det012012⟩

/-- `operator*(Transform2D, Transform2D)`: matrix composition.  The source
reads each elements of each factor through `operator()(row, column)`, which for
every in-range index returns the corresponding stored element (proved
below), so each product entry is the usual row-by-column sum. -/
def Transform2D.compose (t0 t1 : Transform2D) : Transform2D :=
  ⟨t0.m_00 * t1.m_00 + t0.m_01 * t1.m_10 + t0.m_02 * t1.m_20,
   t0.m_00 * t1.m_01 + t0.m_01 * t1.m_11 + t0.m_02 * t1.m_21,
   t0.m_00 * t1.m_02 + t0.m_01 * t1.m_12 + t0.m_02 * t1.m_22,
   t0.m_10 * t1.m_00 + t0.m_11 * t1.m_10 + t0.m_12 * t1.m_20,
   t0.m_10 * t1.m_01 + t0.m_11 * t1.m_11 + t0.m_12 * t1.m_21,
   t0.m_10 * t1.m_02 + t0.m_11 * t1.m_12 + t0.m_12 * t1.m_22,
   t0.m_20 * t1.m_00 + t0.m_21 * t1.m_10 + t0.m_22 * t1.m_20,
   t0.m_20 * t1.m_01 + t0.m_21 * t1.m_11 + t0.m_22 * t1.m_21,
   t0.m_20 * t1.m_02 + t0.m_21 * t1.m_12 + t0.m_22 * t1.m_22⟩

/- ================= Part B: KeypointSelectorBullseye model ================= -/

/-- Modelled from the spec: the image collaborator (the
`KeypointSelectorBullseye` implementation and the brick image classes are
not among the inspected sources).  An immutable dense 2D grid of scalar
intensities with row/column-count queries; row increases downward, column
rightward, origin at the top-left corner. -/
structure Image where
  rows : Nat
  cols : Nat
  pixel : Nat → Nat → ℚ

/-- Modelled from the spec: the detector configuration
`{minRadius, maxRadius, ringCount}`, fixed at construction. -/
structure DetectorConfig where
  minRadius : Nat
  maxRadius : Nat
  ringCount : Nat
deriving DecidableEq

/-- Modelled from the spec: the detector instance.  It owns the config
permanently, a single current image binding (`none` when unbound), and the
memoized integer result set for that binding. -/
structure Detector where
  config : DetectorConfig
  image : Option Image
  memo : Option (List (Nat × Nat))

/-- Modelled from the spec: construction of a `KeypointSelectorBullseye`.
Invalid parameters (a non-positive radius, `minRadius >= maxRadius`, or
`ringCount < 1`) fail fast with a configuration error, so no
half-constructed detector is observable; valid parameters yield an
unbound detector holding exactly the given config. -/
def mkKeypointSelectorBullseye (minRadius maxRadius ringCount : Int) :
    Except String Detector :=
  if minRadius ≤ 0 ∨ maxRadius ≤ 0 then
    Except.error "configuration error: non-positive radius"
  else if maxRadius ≤ minRadius then
    Except.error "configuration error: minRadius must be less than maxRadius"
  else if ringCount < 1 then
    Except.error "configuration error: ringCount must be at least 1"
  else
    Except.ok { config := { minRadius := minRadius.toNat,
                            maxRadius := maxRadius.toNat,
                            ringCount := ringCount.toNat },
                image := none, memo := none }

/-- Modelled from the spec: `setImage(image)`.  Fails with a size error
when either image dimension is smaller than `2*maxRadius + 1`; on failure
the detector (previous binding, or unbound state, and config) is returned
unchanged together with the error.  On success the binding is replaced and
any memoized results are invalidated. -/
def Detector.setImageRun (d : Detector) (img : Image) : Detector × Option String :=
  if img.rows < 2 * d.config.maxRadius + 1 ∨ img.cols < 2 * d.config.maxRadius + 1 then
    (d, some "size error: image too small for detection margin")
  else
    ({ config := d.config, image := some img, memo := none }, none)

/-- Row-major enumeration of every pixel location of a `rows x cols` grid. -/
def scanList (rows cols : Nat) : List (Nat × Nat) :=
  (List.range rows).flatMap (fun r => (List.range cols).map (fun c => (r, c)))

/-- Modelled from the spec: a location is admissible exactly when it is at
least `maxRadius` from every image border (distance `row` from the top
border, `rows - 1 - row` from the bottom border, and likewise for
columns); locations outside this margin are never scored. -/
def admissible (cfg : DetectorConfig) (rows cols : Nat) (p : Nat × Nat) : Bool :=
  decide (cfg.maxRadius ≤ p.1 ∧ p.1 + cfg.maxRadius < rows ∧
          cfg.maxRadius ≤ p.2 ∧ p.2 + cfg.maxRadius < cols)

/-- Lexicographic order on grid locations, row first and then column. -/
def lexLt (p q : Nat × Nat) : Bool :=
  decide (p.1 < q.1 ∨ (p.1 = q.1 ∧ p.2 < q.2))

/-- Modelled from the spec: the exclusion radius is derived from
`maxRadius`; the exact derivation is left open by the spec, so the model
takes it to be `maxRadius` itself. -/
def exclusionRadius (cfg : DetectorConfig) : Nat := cfg.maxRadius

/-- Modelled from the spec: membership of `q` in the exclusion
neighborhood of `p`, taken as the Chebyshev ball of the exclusion
radius. -/
def inNeighborhood (cfg : DetectorConfig) (p q : Nat × Nat) : Bool :=
  decide (Nat.dist p.1 q.1 ≤ exclusionRadius cfg ∧
          Nat.dist p.2 q.2 ≤ exclusionRadius cfg)

/-- Modelled from the spec: `q` beats `p` in non-maximum suppression when
`q` scores strictly higher, or scores equal and precedes `p`
lexicographically (the deterministic tie-break). -/
def beats (score : Nat → Nat → ℚ) (q p : Nat × Nat) : Bool :=
  decide (score p.1 p.2 < score q.1 q.2) ||
    (decide (score q.1 q.2 = score p.1 p.2) && lexLt q p)

/-- Modelled from the spec: non-maximum suppression with thresholding.  A
location is kept when it is admissible, its score exceeds the quality
threshold, and no admissible location in its exclusion neighborhood beats
it.  This is a property of the complete score field, independent of any
evaluation order. -/
def isKeypointAt (cfg : DetectorConfig) (rows cols : Nat)
    (score : Nat → Nat → ℚ) (threshold : ℚ) (p : Nat × Nat) : Bool :=
  admissible cfg rows cols p &&
  decide (threshold < score p.1 p.2) &&
  (scanList rows cols).all (fun q =>
    !(admissible cfg rows cols q && inNeighborhood cfg p q && beats score q p))

/-- Modelled from the spec: the integer keypoint set, in deterministic
row-major order. -/
def computeKeypoints (cfg : DetectorConfig) (rows cols : Nat)
    (score : Nat → Nat → ℚ) (threshold : ℚ) : List (Nat × Nat) :=
  (scanList rows cols).filter (isKeypointAt cfg rows cols score threshold)

/-- Modelled from the spec: the integer keypoints of the currently bound
image (empty when unbound), for a given scoring function and threshold. -/
def keypointsOfImage (score : Image → DetectorConfig → Nat → Nat → ℚ)
    (threshold : ℚ) (cfg : DetectorConfig) : Option Image → List (Nat × Nat)
  | none => []
  | some img => computeKeypoints cfg img.rows img.cols (score img cfg) threshold

/-- Modelled from the spec: `getKeypoints()`.  Returns the memoized result
set when one exists for the current binding, otherwise computes it from
the bound image and config and memoizes it; the config and binding are
never changed. -/
def Detector.getKeypointsRun (score : Image → DetectorConfig → Nat → Nat → ℚ)
    (threshold : ℚ) (d : Detector) : List (Nat × Nat) × Detector :=
  match d.memo with
  | some ks => (ks, d)
  | none =>
    let ks := keypointsOfImage score threshold d.config d.image
    (ks, { config := d.config, image := d.image, memo := some ks })

/-- The score field of the current binding of the detector: the per-location
score is a pure function of the bound image and the config (zero when
unbound, where no keypoints exist anyway). -/
def Detector.scoreFn (score : Image → DetectorConfig → Nat → Nat → ℚ)
    (d : Detector) : Nat → Nat → ℚ :=
  match d.image with
  | some img => score img d.config
  | none => fun _ _ => 0

/-- A general-position (sub-pixel) keypoint record. -/
structure KeypointGP where
  row : ℚ
  column : ℚ
deriving DecidableEq

/-- Modelled from the spec: the sub-pixel offset along one axis, from a
quadratic fit through the scores at offsets -1, 0, +1.  A degenerate
(flat) fit falls back to offset zero, and the resulting offset is clamped
to magnitude below one pixel (to the half-pixel interval). -/
def quadOffset (sm s0 sp : ℚ) : ℚ :=
  if sm - 2 * s0 + sp = 0 then 0
  else max (-(1 / 2)) (min (1 / 2) ((sm - sp) / (2 * (sm - 2 * s0 + sp))))

/-- Modelled from the spec: the sub-pixel refiner for one integer
keypoint, fitting each axis independently over the immediate neighborhood
in the score field. -/
def refineKeypoint (score : Nat → Nat → ℚ) (p : Nat × Nat) : KeypointGP :=
  { row := (p.1 : ℚ) +
      quadOffset (score (p.1 - 1) p.2) (score p.1 p.2) (score (p.1 + 1) p.2),
    column := (p.2 : ℚ) +
      quadOffset (score p.1 (p.2 - 1)) (score p.1 p.2) (score p.1 (p.2 + 1)) }

/-- Modelled from the spec: `getKeypointsGeneralPosition()`.  The sub-pixel
refinement of the same set as `getKeypoints()`, element for element in the
same order. -/
def Detector.getKeypointsGeneralPositionRun
    (score : Image → DetectorConfig → Nat → Nat → ℚ) (threshold : ℚ)
    (d : Detector) : List KeypointGP × Detector :=
  let r := d.getKeypointsRun score threshold
  (r.1.map (refineKeypoint (d.scoreFn score)), r.2)

/-- Modelled from the spec: memo consistency.  The memo field of a
detector is either empty or holds exactly the keypoint set of the current
binding; every state reachable through construction, `setImage` and
`getKeypoints` satisfies this. -/
def memoConsistent (score : Image → DetectorConfig → Nat → Nat → ℚ)
    (threshold : ℚ) (d : Detector) : Prop :=
  d.memo = none ∨ d.memo = some (keypointsOfImage score threshold d.config d.image)

/- ============ Reference scenario (claim C1) ============ -/

/-- The configuration of the reference scenario:
`KeypointSelectorBullseye<double> selector(10, 15, 5)`. -/
def refConfig : DetectorConfig := ⟨10, 15, 5⟩

/-- Modelled from the spec: the reference bullseye test image
(`getBullseyeFileNamePGM0()` / `readPGM8`, not among the inspected
sources).  Only its dimensions matter to the model, because the score
field of the reference scenario is modelled directly; the raster contents
are therefore left neutral. -/
def refBullseyeImage : Image := ⟨120, 120, fun _ _ => 0⟩

/-- Modelled from the spec: the score field of the reference scenario.
The exact scoring formula is left open by the spec, which designates the
reference scenario itself as the acceptance oracle: a single well-formed
marker at row 59, column 54, so the score field has its unique
above-threshold maximum there. -/
def refScoreField : Nat → Nat → ℚ := fun r c => if r = 59 ∧ c = 54 then 1 else 0

/-- The reference score field, as a function of the bound image and the
config. -/
def refScoreOf : Image → DetectorConfig → Nat → Nat → ℚ := fun _ _ => refScoreField

/-- Modelled from the spec: the fixed minimum-quality threshold of the
reference scenario. -/
def refThreshold : ℚ := 1 / 2

/- ============ Small concrete scenario (witnesses) ============ -/

/-- A small valid configuration used to instantiate the universally
quantified theorems below on concrete inputs. -/
def tinyConfig : DetectorConfig := ⟨1, 2, 1⟩

/-- A small score field with a single peak at (2, 2). -/
def tinyScoreField : Nat → Nat → ℚ := fun r c => if r = 2 ∧ c = 2 then 1 else 0

/-- The small score field as a function of image and config. -/
def tinyScoreOf : Image → DetectorConfig → Nat → Nat → ℚ := fun _ _ => tinyScoreField

/-- A small 5 x 5 image. -/
def tinyImage : Image := ⟨5, 5, fun _ _ => 0⟩

/-- A small 5 x 6 image. -/
def tinyWideImage : Image := ⟨5, 6, fun _ _ => 0⟩

/-- A small detector bound to `tinyImage`, memo not yet populated. -/
def tinyDetector : Detector := ⟨tinyConfig, some tinyImage, none⟩

/-- A small score field with two tied peaks at (2, 2) and (2, 3), used to
instantiate the tie-break theorem. -/
def tieScoreField : Nat → Nat → ℚ :=
  fun r c => if r = 2 ∧ (c = 2 ∨ c = 3) then 1 else 0

/- ================= Theorems ================= -/

/-- Membership in the row-major scan: exactly the in-bounds locations. -/
theorem mem_scanList (rows cols : Nat) (p : Nat × Nat) :
    p ∈ scanList rows cols ↔ p.1 < rows ∧ p.2 < cols := by
  cases p with
  | mk r c => simp [scanList, List.mem_flatMap, List.mem_map, List.mem_range]

/-- The row-major scan enumerates every location exactly once. -/
theorem nodup_scanList (rows cols : Nat) : (scanList rows cols).Nodup := by
  apply List.nodup_flatMap.2
  constructor
  · intro r _
    exact (List.nodup_range cols).map (fun a b h => by simpa using h)
  · apply List.Pairwise.imp ?_ (List.nodup_range rows)
    intro a b hab
    simp only [List.disjoint_left]
    rintro ⟨r, c⟩ h1 h2
    simp only [List.mem_map, List.mem_range] at h1 h2
    obtain ⟨c1, _, e1⟩ := h1
    obtain ⟨c2, _, e2⟩ := h2
    cases e1; cases e2; exact hab rfl

/-- Filtering a duplicate-free list by a predicate that holds exactly at
one of its members yields exactly that member. -/
theorem filter_singleton_of_unique {α : Type} (l : List α) (p : α → Bool) (a : α)
    (hnd : l.Nodup) (hmem : a ∈ l) (hchar : ∀ x ∈ l, p x = true ↔ x = a) :
    l.filter p = [a] := by
  induction l with
  | nil => simp at hmem
  | cons b t ih =>
    rcases hnd with _ | ⟨hb, ht⟩
    rcases List.mem_cons.1 hmem with rfl | hat
    · rw [List.filter_cons_of_pos ((hchar a (by simp)).2 rfl)]
      have hnil : t.filter p = [] := List.filter_eq_nil_iff.2 (fun x hx hpx => by
        have hxa := (hchar x (by simp [hx])).1 (by simpa using hpx)
        subst hxa
        exact (hb x hx rfl).elim)
      rw [hnil]
    · have hba : b ≠ a := hb a hat
      have hpb : p b = false := by
        rcases Bool.eq_false_or_eq_true (p b) with h | h
        · exact absurd ((hchar b (by simp)).1 h) hba
        · exact h
      rw [List.filter_cons_of_neg (by simp [hpb])]
      exact ih ht hat (fun x hx => hchar x (by simp [hx]))

/-- `invert()` on a transform with nonzero determinant: the explicit
adjugate-over-determinant result. -/
theorem invert_eq_ok (t : Transform2D) (h : t.det012012 ≠ 0) :
    t.invert = Except.ok
      ⟨(t.m_11 * t.m_22 - t.m_12 * t.m_21) / t.det012012,
       -(t.m_01 * t.m_22 - t.m_02 * t.m_21) / t.det012012,
       (t.m_01 * t.m_12 - t.m_02 * t.m_11) / t.det012012,
       -(t.m_10 * t.m_22 - t.m_12 * t.m_20) / t.det012012,
       (t.m_00 * t.m_22 - t.m_02 * t.m_20) / t.det012012,
       -(t.m_00 * t.m_12 - t.m_02 * t.m_10) / t.det012012,
       (t.m_10 * t.m_21 - t.m_11 * t.m_20) / t.det012012,
       -(t.m_00 * t.m_21 - t.m_01 * t.m_20) / t.det012012,
       (t.m_00 * t.m_11 - t.m_01 * t.m_10) / t.det012012⟩ := by
  have h2 : t.m_00 * (t.m_11 * t.m_22 - t.m_12 * t.m_21)
      - t.m_01 * (t.m_10 * t.m_22 - t.m_12 * t.m_20)
      + t.m_02 * (t.m_10 * t.m_21 - t.m_11 * t.m_20) ≠ 0 := by
    simpa [Transform2D.det012012] using h
  simp only [Transform2D.invert, Transform2D.det012012]
  rw [if_neg h2]

/-- Claim C9: whenever the 3x3 determinant `det012012` is nonzero,
`invert()` succeeds and composing the original transform with the result
(by `operator*`) gives exactly the identity transform of the default
constructor; when the determinant is zero, `invert()` throws a
`ValueException` (embedded as the error result) and, being a const member,
leaves the original transform unchanged (the embedding is a pure function
of `t`). -/
theorem claim_C9_invert_identity (t : Transform2D) :
    (t.det012012 ≠ 0 →
      ∃ ti, t.invert = Except.ok ti ∧ t.compose ti = Transform2D.identityT) ∧
    (t.det012012 = 0 → t.invert = Except.error "Transform is not invertible.") := by
  constructor
  · intro h
    refine ⟨_, invert_eq_ok t h, ?_⟩
    cases t with
    | mk a00 a01 a02 a10 a11 a12 a20 a21 a22 =>
      simp only [Transform2D.det012012] at h
      simp only [Transform2D.compose, Transform2D.identityT, Transform2D.det012012,
        Transform2D.mk.injEq]
      refine ⟨?_, ?_, ?_, ?_, ?_, ?_, ?_, ?_, ?_⟩ <;>
        (field_simp; ring)
  · intro h
    have h2 : t.m_00 * (t.m_11 * t.m_22 - t.m_12 * t.m_21)
        - t.m_01 * (t.m_10 * t.m_22 - t.m_12 * t.m_20)
        + t.m_02 * (t.m_10 * t.m_21 - t.m_11 * t.m_20) = 0 := by
      simpa [Transform2D.det012012] using h
    simp only [Transform2D.invert]
    rw [if_pos h2]

/-- Witness for claim C9: a concrete invertible transform (diagonal
2, 3, 1, determinant 6). -/
theorem claim_C9_witness :
    ∃ ti, Transform2D.invert ⟨2, 0, 0, 0, 3, 0, 0, 0, 1⟩ = Except.ok ti ∧
      Transform2D.compose ⟨2, 0, 0, 0, 3, 0, 0, 0, 1⟩ ti = Transform2D.identityT :=
  (claim_C9_invert_identity ⟨2, 0, 0, 0, 3, 0, 0, 0, 1⟩).1
    (by norm_num [Transform2D.det012012])

/-- Claim C10: for in-range indices (both in {0, 1, 2}) the accessor
`operator()(row, column)` returns the stored element `m_rowcolumn`, the
templated `getValue<row, column>()` accessor agrees with it everywhere,
and out-of-range indices make both throw `IndexException`; both are const
accessors, embedded as pure functions of the transform. -/
theorem claim_C10_element_access (t : Transform2D) :
    (t.applyIndex 0 0 = Except.ok t.m_00 ∧ t.applyIndex 0 1 = Except.ok t.m_01 ∧
     t.applyIndex 0 2 = Except.ok t.m_02 ∧ t.applyIndex 1 0 = Except.ok t.m_10 ∧
     t.applyIndex 1 1 = Except.ok t.m_11 ∧ t.applyIndex 1 2 = Except.ok t.m_12 ∧
     t.applyIndex 2 0 = Except.ok t.m_20 ∧ t.applyIndex 2 1 = Except.ok t.m_21 ∧
     t.applyIndex 2 2 = Except.ok t.m_22) ∧
    (∀ row column : Nat, t.getValue row column = t.applyIndex row column) ∧
    (∀ row column : Nat, ¬(row < 3 ∧ column < 3) →
      t.applyIndex row column = Except.error "IndexException" ∧
      t.getValue row column = Except.error "IndexException") := by
  refine ⟨⟨rfl, rfl, rfl, rfl, rfl, rfl, rfl, rfl, rfl⟩, ?_, ?_⟩
  · intro row column
    rcases row with _ | _ | _ | r <;> rcases column with _ | _ | _ | c <;> rfl
  · intro row column h
    rcases row with _ | _ | _ | r <;> rcases column with _ | _ | _ | c <;>
      first
        | exact absurd ⟨by omega, by omega⟩ h
        | exact ⟨rfl, rfl⟩

/-- Witness for claim C10: the identity transform at the in-range index
(1, 1) and the out-of-range index (0, 3). -/
theorem claim_C10_witness :
    Transform2D.identityT.applyIndex 1 1 = Except.ok Transform2D.identityT.m_11 ∧
    Transform2D.identityT.getValue 0 3 = Except.error "IndexException" := by
  refine ⟨(claim_C10_element_access Transform2D.identityT).1.2.2.2.2.1, ?_⟩
  exact ((claim_C10_element_access Transform2D.identityT).2.2 0 3 (by omega)).2

/-- In the reference score field, no location beats (59, 54). -/
theorem beats_refScoreField_false (q : Nat × Nat) :
    beats refScoreField q (59, 54) = false := by
  by_cases h : q.1 = 59 ∧ q.2 = 54
  · obtain ⟨h1, h2⟩ := h
    simp [beats, lexLt, refScoreField, h1, h2]
  · have hz : refScoreField q.1 q.2 = 0 := by
      simp only [refScoreField, if_neg h]
    have ho : refScoreField 59 54 = 1 := by norm_num [refScoreField]
    simp [beats, hz, ho]

/-- In the reference scenario, non-maximum suppression keeps a location
exactly when it is (59, 54). -/
theorem isKeypointAt_ref_char (x : Nat × Nat) :
    isKeypointAt refConfig 120 120 refScoreField refThreshold x = true ↔
      x = (59, 54) := by
  constructor
  · intro h
    simp only [isKeypointAt, refThreshold, Bool.and_eq_true, decide_eq_true_eq] at h
    by_contra hne
    have hx : x.1 = 59 ∧ x.2 = 54 → False := fun hc => hne (Prod.ext hc.1 hc.2)
    have hz : refScoreField x.1 x.2 = 0 := by
      simp only [refScoreField, if_neg hx]
    rw [hz] at h
    norm_num at h
  · rintro rfl
    simp only [isKeypointAt, refThreshold, Bool.and_eq_true, decide_eq_true_eq]
    refine ⟨⟨by decide, ?_⟩, ?_⟩
    · norm_num [refScoreField]
    · apply List.all_eq_true.2
      intro q _
      rw [beats_refScoreField_false q]
      simp

/-- The integer keypoint set of the reference scenario is exactly the one
location (59, 54). -/
theorem computeKeypoints_ref :
    computeKeypoints refConfig 120 120 refScoreField refThreshold = [(59, 54)] := by
  apply filter_singleton_of_unique _ _ _ (nodup_scanList 120 120)
  · exact (mem_scanList 120 120 (59, 54)).2 (by decide)
  · intro x _
    exact isKeypointAt_ref_char x

/-- Claim C1: in the reference scenario, a detector constructed with
`minRadius = 10, maxRadius = 15, ringCount = 5` and successfully bound via
`setImage` to the reference bullseye image returns from `getKeypoints()`
exactly one keypoint, at row 59, column 54. -/
theorem claim_C1_reference_scenario :
    ∃ d0 : Detector,
      mkKeypointSelectorBullseye 10 15 5 = Except.ok d0 ∧
      (d0.setImageRun refBullseyeImage).2 = none ∧
      ((d0.setImageRun refBullseyeImage).1.getKeypointsRun refScoreOf
        refThreshold).1 = [(59, 54)] := by
  refine ⟨⟨refConfig, none, none⟩, by rfl, by rfl, ?_⟩
  have hrun : ((⟨refConfig, none, none⟩ : Detector).setImageRun
      refBullseyeImage).1 = ⟨refConfig, some refBullseyeImage, none⟩ := by rfl
  rw [hrun]
  simp only [Detector.getKeypointsRun, keypointsOfImage, refScoreOf,
    refBullseyeImage]
  exact computeKeypoints_ref

/-- For a memo-consistent detector, `getKeypoints` returns exactly the
keypoint set of the current binding. -/
theorem getKeypointsRun_fst_eq (score : Image → DetectorConfig → Nat → Nat → ℚ)
    (threshold : ℚ) (d : Detector) (h : memoConsistent score threshold d) :
    (d.getKeypointsRun score threshold).1 =
      keypointsOfImage score threshold d.config d.image := by
  rcases h with h | h <;> simp only [Detector.getKeypointsRun, h]

/-- Every member of the computed keypoint set is admissible. -/
theorem admissible_of_mem_computeKeypoints (cfg : DetectorConfig)
    (rows cols : Nat) (score : Nat → Nat → ℚ) (threshold : ℚ) (p : Nat × Nat)
    (h : p ∈ computeKeypoints cfg rows cols score threshold) :
    cfg.maxRadius ≤ p.1 ∧ p.1 + cfg.maxRadius < rows ∧
    cfg.maxRadius ≤ p.2 ∧ p.2 + cfg.maxRadius < cols := by
  have h2 := (List.mem_filter.1 h).2
  simp only [isKeypointAt, Bool.and_eq_true] at h2
  exact of_decide_eq_true h2.1.1

/-- The sub-pixel offset of the quadratic fit never exceeds half a pixel
in magnitude. -/
theorem abs_quadOffset_le_half (sm s0 sp : ℚ) : |quadOffset sm s0 sp| ≤ 1 / 2 := by
  unfold quadOffset
  split
  · norm_num
  · rw [abs_le]
    exact ⟨le_max_left _ _, max_le (by norm_num) (min_le_left _ _)⟩

/-- Each general-position coordinate is within half a pixel of its integer
keypoint, per axis. -/
theorem refineKeypoint_close (score : Nat → Nat → ℚ) (p : Nat × Nat) :
    |(refineKeypoint score p).row - (p.1 : ℚ)| ≤ 1 / 2 ∧
    |(refineKeypoint score p).column - (p.2 : ℚ)| ≤ 1 / 2 := by
  constructor
  · have := abs_quadOffset_le_half (score (p.1 - 1) p.2) (score p.1 p.2)
      (score (p.1 + 1) p.2)
    simpa [refineKeypoint] using this
  · have := abs_quadOffset_le_half (score p.1 (p.2 - 1)) (score p.1 p.2)
      (score p.1 (p.2 + 1))
    simpa [refineKeypoint] using this

/-- In the tiny witness scenario, non-maximum suppression keeps a location
exactly when it is (2, 2) — the only admissible location of a 5 x 5 image
with a margin of 2. -/
theorem isKeypointAt_tiny_char (x : Nat × Nat) :
    isKeypointAt tinyConfig 5 5 tinyScoreField 0 x = true ↔ x = (2, 2) := by
  constructor
  · intro h
    simp only [isKeypointAt, Bool.and_eq_true] at h
    have hb := of_decide_eq_true h.1.1
    have hmr : tinyConfig.maxRadius = 2 := rfl
    rw [hmr] at hb
    have h1 : x.1 = 2 := by omega
    have h2 : x.2 = 2 := by omega
    exact Prod.ext h1 h2
  · rintro rfl
    simp only [isKeypointAt, Bool.and_eq_true]
    refine ⟨⟨by decide, ?_⟩, ?_⟩
    · exact decide_eq_true (by norm_num [tinyScoreField])
    · apply List.all_eq_true.2
      intro q _
      by_cases hq : admissible tinyConfig 5 5 q = true
      · have hb := of_decide_eq_true hq
        have hmr : tinyConfig.maxRadius = 2 := rfl
        rw [hmr] at hb
        have hq1 : q.1 = 2 := by omega
        have hq2 : q.2 = 2 := by omega
        have hqe : q = ((2 : Nat), (2 : Nat)) := Prod.ext hq1 hq2
        subst hqe
        simp [beats, lexLt]
      · simp [hq]

/-- The keypoint set of the tiny witness scenario is exactly (2, 2). -/
theorem computeKeypoints_tiny :
    computeKeypoints tinyConfig 5 5 tinyScoreField 0 = [(2, 2)] := by
  apply filter_singleton_of_unique _ _ _ (nodup_scanList 5 5)
  · exact (mem_scanList 5 5 (2, 2)).2 (by decide)
  · intro x _
    exact isKeypointAt_tiny_char x

/-- The `getKeypoints` result of the tiny detector. -/
theorem tiny_run_fst :
    (tinyDetector.getKeypointsRun tinyScoreOf 0).1 = [(2, 2)] := by
  have h := getKeypointsRun_fst_eq tinyScoreOf 0 tinyDetector (Or.inl rfl)
  rw [h]
  simp only [tinyDetector, keypointsOfImage, tinyScoreOf, tinyImage]
  exact computeKeypoints_tiny

/-- The `getKeypointsGeneralPosition` result of the tiny detector. -/
theorem tiny_gp_fst :
    (tinyDetector.getKeypointsGeneralPositionRun tinyScoreOf 0).1 =
      [refineKeypoint (tinyDetector.scoreFn tinyScoreOf) (2, 2)] := by
  simp only [Detector.getKeypointsGeneralPositionRun]
  rw [tiny_run_fst]
  rfl

/-- Claim C2: for a detector with a successfully bound image, the
general-position sequence has the same number of elements as the integer
sequence and corresponds to it element for element, in the same order
(element i is the refinement of integer keypoint i). -/
theorem claim_C2_cardinality_correspondence
    (score : Image → DetectorConfig → Nat → Nat → ℚ) (threshold : ℚ)
    (d : Detector) (img : Image) (hbound : d.image = some img) :
    ((d.getKeypointsGeneralPositionRun score threshold).1).length =
      ((d.getKeypointsRun score threshold).1).length ∧
    ∀ (i : Nat)
      (h1 : i < ((d.getKeypointsGeneralPositionRun score threshold).1).length)
      (h2 : i < ((d.getKeypointsRun score threshold).1).length),
      ((d.getKeypointsGeneralPositionRun score threshold).1).get ⟨i, h1⟩ =
        refineKeypoint (d.scoreFn score)
          (((d.getKeypointsRun score threshold).1).get ⟨i, h2⟩) := by
  constructor
  · simp only [Detector.getKeypointsGeneralPositionRun]
    exact List.length_map _ _
  · intro i h1 h2
    simp only [Detector.getKeypointsGeneralPositionRun] at h1 ⊢
    simp [List.get_eq_getElem, List.getElem_map]

/-- Witness for claim C2: the tiny bound detector. -/
theorem claim_C2_witness :
    ((tinyDetector.getKeypointsGeneralPositionRun tinyScoreOf 0).1).length =
      ((tinyDetector.getKeypointsRun tinyScoreOf 0).1).length :=
  (claim_C2_cardinality_correspondence tinyScoreOf 0 tinyDetector tinyImage rfl).1

/-- Claim C3: for every keypoint of a bound detector, on each axis the
absolute difference between the general-position coordinate and the
integer coordinate of the corresponding keypoint is strictly less than
one pixel. -/
theorem claim_C3_subpixel_bound
    (score : Image → DetectorConfig → Nat → Nat → ℚ) (threshold : ℚ)
    (d : Detector) (img : Image) (hbound : d.image = some img) (i : Nat)
    (h1 : i < ((d.getKeypointsGeneralPositionRun score threshold).1).length)
    (h2 : i < ((d.getKeypointsRun score threshold).1).length) :
    |(((d.getKeypointsGeneralPositionRun score threshold).1).get ⟨i, h1⟩).row -
        (((((d.getKeypointsRun score threshold).1).get ⟨i, h2⟩).1 : Nat) : ℚ)| < 1 ∧
    |(((d.getKeypointsGeneralPositionRun score threshold).1).get ⟨i, h1⟩).column -
        (((((d.getKeypointsRun score threshold).1).get ⟨i, h2⟩).2 : Nat) : ℚ)| < 1 := by
  have hget : ((d.getKeypointsGeneralPositionRun score threshold).1).get ⟨i, h1⟩ =
      refineKeypoint (d.scoreFn score)
        (((d.getKeypointsRun score threshold).1).get ⟨i, h2⟩) := by
    simp only [Detector.getKeypointsGeneralPositionRun] at h1 ⊢
    simp [List.get_eq_getElem, List.getElem_map]
  rw [hget]
  have hc := refineKeypoint_close (d.scoreFn score)
    (((d.getKeypointsRun score threshold).1).get ⟨i, h2⟩)
  constructor
  · exact lt_of_le_of_lt hc.1 (by norm_num)
  · exact lt_of_le_of_lt hc.2 (by norm_num)

/-- Witness for claim C3: the single keypoint of the tiny bound detector. -/
theorem claim_C3_witness :
    ∃ (h1 : 0 < ((tinyDetector.getKeypointsGeneralPositionRun tinyScoreOf 0).1).length)
      (h2 : 0 < ((tinyDetector.getKeypointsRun tinyScoreOf 0).1).length),
      |(((tinyDetector.getKeypointsGeneralPositionRun tinyScoreOf 0).1).get
          ⟨0, h1⟩).row -
        ((((((tinyDetector.getKeypointsRun tinyScoreOf 0).1).get
          ⟨0, h2⟩).1 : Nat)) : ℚ)| < 1 := by
  have h1 : 0 < ((tinyDetector.getKeypointsGeneralPositionRun tinyScoreOf 0).1).length := by
    rw [tiny_gp_fst]
    simp
  have h2 : 0 < ((tinyDetector.getKeypointsRun tinyScoreOf 0).1).length := by
    rw [tiny_run_fst]
    simp
  exact ⟨h1, h2,
    (claim_C3_subpixel_bound tinyScoreOf 0 tinyDetector tinyImage rfl 0 h1 h2).1⟩

/-- Claim C4: every keypoint returned by `getKeypoints()` of a bound,
memo-consistent detector lies within the image bounds and at least
`maxRadius` from every border (at least `maxRadius` rows from the top and
bottom edges and at least `maxRadius` columns from the left and right
edges), for any image, score field and threshold. -/
theorem claim_C4_border_exclusion
    (score : Image → DetectorConfig → Nat → Nat → ℚ) (threshold : ℚ)
    (d : Detector) (img : Image) (hbound : d.image = some img)
    (hmc : memoConsistent score threshold d) (p : Nat × Nat)
    (hp : p ∈ (d.getKeypointsRun score threshold).1) :
    p.1 < img.rows ∧ p.2 < img.cols ∧
    d.config.maxRadius ≤ p.1 ∧ p.1 + d.config.maxRadius < img.rows ∧
    d.config.maxRadius ≤ p.2 ∧ p.2 + d.config.maxRadius < img.cols := by
  rw [getKeypointsRun_fst_eq score threshold d hmc, hbound] at hp
  simp only [keypointsOfImage] at hp
  have h := admissible_of_mem_computeKeypoints _ _ _ _ _ _ hp
  exact ⟨by omega, by omega, h.1, h.2.1, h.2.2.1, h.2.2.2⟩

/-- Witness for claim C4: the keypoint (2, 2) of the tiny bound detector in the
5 x 5 image with margin 2. -/
theorem claim_C4_witness :
    ((2, 2) : Nat × Nat).1 < tinyImage.rows ∧
    ((2, 2) : Nat × Nat).2 < tinyImage.cols ∧
    tinyDetector.config.maxRadius ≤ ((2, 2) : Nat × Nat).1 ∧
    ((2, 2) : Nat × Nat).1 + tinyDetector.config.maxRadius < tinyImage.rows ∧
    tinyDetector.config.maxRadius ≤ ((2, 2) : Nat × Nat).2 ∧
    ((2, 2) : Nat × Nat).2 + tinyDetector.config.maxRadius < tinyImage.cols :=
  claim_C4_border_exclusion tinyScoreOf 0 tinyDetector tinyImage rfl
    (Or.inl rfl) (2, 2) (by rw [tiny_run_fst]; simp)

/-- Claim C5: `setImage` fails with a size error exactly when either image
dimension is smaller than `2*maxRadius + 1`; on failure the detector —
its previous binding (or unbound state), memo and config — is left
unchanged, and otherwise the call succeeds and replaces the binding
(invalidating the memo). -/
theorem claim_C5_setImage_size_check (d : Detector) (img : Image) :
    ((img.rows < 2 * d.config.maxRadius + 1 ∨
        img.cols < 2 * d.config.maxRadius + 1) ↔
      (d.setImageRun img).2.isSome = true) ∧
    ((d.setImageRun img).2.isSome = true → (d.setImageRun img).1 = d) ∧
    ((2 * d.config.maxRadius + 1 ≤ img.rows ∧
        2 * d.config.maxRadius + 1 ≤ img.cols) →
      (d.setImageRun img).2 = none ∧
      (d.setImageRun img).1 =
        { config := d.config, image := some img, memo := none }) := by
  unfold Detector.setImageRun
  split
  · next h => exact ⟨⟨fun _ => rfl, fun _ => h⟩, fun _ => rfl, fun hc => by omega⟩
  · next h =>
    refine ⟨⟨fun hc => absurd hc h, fun hs => by simp at hs⟩,
      fun hs => by simp at hs, fun _ => ⟨rfl, rfl⟩⟩

/-- Witness for claim C5: the tiny detector rejects a 3 x 3 image
(3 < 2*2 + 1) unchanged, and accepts the 5 x 5 image. -/
theorem claim_C5_witness :
    (tinyDetector.setImageRun ⟨3, 3, fun _ _ => 0⟩).1 = tinyDetector ∧
    (tinyDetector.setImageRun tinyImage).2 = none := by
  constructor
  · exact (claim_C5_setImage_size_check tinyDetector ⟨3, 3, fun _ _ => 0⟩).2.1
      (by decide)
  · exact ((claim_C5_setImage_size_check tinyDetector tinyImage).2.2
      (by decide)).1

/-- Claim C6: construction fails with a configuration error exactly when
`minRadius >= maxRadius`, `ringCount < 1`, or a radius is non-positive
(so no half-constructed detector is observable — the error carries no
detector); with valid parameters construction succeeds with exactly the
given parameters, and no later operation (`setImage`, `getKeypoints`)
ever changes the config. -/
theorem claim_C6_construction_validation (minRadius maxRadius ringCount : Int) :
    ((minRadius ≤ 0 ∨ maxRadius ≤ 0 ∨ maxRadius ≤ minRadius ∨ ringCount < 1) ↔
      ∃ e, mkKeypointSelectorBullseye minRadius maxRadius ringCount =
        Except.error e) ∧
    ((0 < minRadius ∧ 0 < maxRadius ∧ minRadius < maxRadius ∧ 1 ≤ ringCount) →
      mkKeypointSelectorBullseye minRadius maxRadius ringCount =
        Except.ok ⟨⟨minRadius.toNat, maxRadius.toNat, ringCount.toNat⟩,
          none, none⟩) ∧
    (∀ (d : Detector) (img : Image), ((d.setImageRun img).1).config = d.config) ∧
    (∀ (score : Image → DetectorConfig → Nat → Nat → ℚ) (threshold : ℚ)
      (d : Detector),
      ((d.getKeypointsRun score threshold).2).config = d.config) := by
  refine ⟨⟨?_, ?_⟩, ?_, ?_, ?_⟩
  · intro h
    unfold mkKeypointSelectorBullseye
    split
    · exact ⟨_, rfl⟩
    · split
      · exact ⟨_, rfl⟩
      · split
        · exact ⟨_, rfl⟩
        · omega
  · intro ⟨e, he⟩
    unfold mkKeypointSelectorBullseye at he
    split at he
    · omega
    · split at he
      · omega
      · split at he
        · omega
        · exact absurd he (by simp)
  · intro ⟨hm, hx, hlt, hr⟩
    unfold mkKeypointSelectorBullseye
    rw [if_neg (by omega), if_neg (by omega), if_neg (by omega)]
  · intro d img
    unfold Detector.setImageRun
    split <;> rfl
  · intro score threshold d
    unfold Detector.getKeypointsRun
    split <;> rfl

/-- Witness for claim C6: valid parameters (10, 15, 5) construct
successfully. -/
theorem claim_C6_witness :
    mkKeypointSelectorBullseye 10 15 5 =
      Except.ok ⟨⟨(10 : Int).toNat, (15 : Int).toNat, (5 : Int).toNat⟩,
        none, none⟩ :=
  (claim_C6_construction_validation 10 15 5).2.1 (by norm_num)

/-- Claim C7: `getKeypoints` is deterministic — a second call on the
detector returned by the first call yields the identical result list and
the identical state, and on any memo-consistent detector the result is
exactly the pure function `keypointsOfImage` of the current image and
config (memo consistency being preserved by the call, this holds along
any call sequence). -/
theorem claim_C7_determinism
    (score : Image → DetectorConfig → Nat → Nat → ℚ) (threshold : ℚ)
    (d : Detector) :
    ((((d.getKeypointsRun score threshold).2).getKeypointsRun score threshold).1 =
      (d.getKeypointsRun score threshold).1) ∧
    ((((d.getKeypointsRun score threshold).2).getKeypointsRun score threshold).2 =
      (d.getKeypointsRun score threshold).2) ∧
    (memoConsistent score threshold d →
      (d.getKeypointsRun score threshold).1 =
        keypointsOfImage score threshold d.config d.image) ∧
    (memoConsistent score threshold d →
      memoConsistent score threshold (d.getKeypointsRun score threshold).2) := by
  cases d with
  | mk cfg img memo =>
    cases memo with
    | none =>
      exact ⟨rfl, rfl, fun _ => rfl, fun _ => Or.inr rfl⟩
    | some ks =>
      refine ⟨rfl, rfl, fun hmc => ?_, fun hmc => hmc⟩
      rcases hmc with hmc | hmc
      · exact absurd hmc (by simp)
      · simp only [Detector.getKeypointsRun]
        simpa using hmc

/-- Witness for claim C7: the tiny bound detector. -/
theorem claim_C7_witness :
    (tinyDetector.getKeypointsRun tinyScoreOf 0).1 =
      keypointsOfImage tinyScoreOf 0 tinyDetector.config tinyDetector.image :=
  (claim_C7_determinism tinyScoreOf 0 tinyDetector).2.2.1 (Or.inl rfl)

/-- Claim C8: the non-maximum-suppression tie-break.  When two locations
in one exclusion neighborhood attain the same score, the lexicographically
greater one (row first, then column) is never reported, and a location
that survives the (evaluation-order-independent) suppression predicate is
reported; hence among equal maximal scores in one neighborhood the
lexicographically smallest location wins. -/
theorem claim_C8_tiebreak_lex_smallest (cfg : DetectorConfig) (rows cols : Nat)
    (score : Nat → Nat → ℚ) (threshold : ℚ) (p q : Nat × Nat)
    (hadm : admissible cfg rows cols p = true)
    (hnb : inNeighborhood cfg q p = true)
    (heq : score q.1 q.2 = score p.1 p.2)
    (hlex : lexLt p q = true) :
    q ∉ computeKeypoints cfg rows cols score threshold ∧
    (isKeypointAt cfg rows cols score threshold p = true →
      p ∈ computeKeypoints cfg rows cols score threshold) := by
  have hb := of_decide_eq_true hadm
  have hpmem : p ∈ scanList rows cols :=
    (mem_scanList rows cols p).2 ⟨by omega, by omega⟩
  have hbeats : beats score p q = true := by
    have hes : score p.1 p.2 = score q.1 q.2 := heq.symm
    simp [beats, hes, hlex]
  constructor
  · intro hq
    obtain ⟨hqs, hkq⟩ := List.mem_filter.1 hq
    simp only [isKeypointAt, Bool.and_eq_true] at hkq
    have hall := List.all_eq_true.1 hkq.2 p hpmem
    rw [hadm, hnb, hbeats] at hall
    simp at hall
  · intro hk
    exact List.mem_filter.2 ⟨hpmem, hk⟩

/-- Witness for claim C8: in the 5 x 6 image with tied peaks at (2, 2)
and (2, 3), the lexicographically greater (2, 3) is not reported. -/
theorem claim_C8_witness :
    ((2, 3) : Nat × Nat) ∉ computeKeypoints tinyConfig 5 6 tieScoreField 0 :=
  (claim_C8_tiebreak_lex_smallest tinyConfig 5 6 tieScoreField 0 (2, 2) (2, 3)
    (by decide) (by decide) rfl (by decide)).1
